import Mathlib

/-!
Shallow embedding of the AURA retinal-screening frontend (vanilla-JS modules)
into Lean 4, for checking the repository's specification.

Modules embedded:
* `src/frontend/js/api.js`   — `parseErrorMessage`, `request`
* `src/frontend/js/auth.js`  — storage model, `setAuth`, `requireRole`,
  `getRoleNameByRoleId`, `setAuthFromResponse`
* `src/frontend/js/components/spinner.js` — `AuraTable.render` (pagination)
* register page (`validate` and the submit handler)

JS strings are Lean `String`s; absent/undefined fields are `Option`;
JS truthiness of a string is "non-empty"; machine DOM effects are modelled
as explicit result structures.
-/

namespace Aura

/-- JS truthiness of a possibly-absent string: truthy iff present and non-empty. -/
def strTruthy (o : Option String) : Bool :=
  match o with
  | some s => s ≠ ""
  | none => false

/-- JS `x || fallback` for a possibly-absent string `x`. -/
def strOr (o : Option String) (fallback : String) : String :=
  match o with
  | some s => if s = "" then fallback else s
  | none => fallback

/-- Whether `pat` occurs as a contiguous run inside `l`. -/
def containsPat (pat : List Char) : List Char → Bool
  | [] => List.isPrefixOf pat []
  | c :: rest => List.isPrefixOf pat (c :: rest) || containsPat pat rest

/-- JS `s.indexOf(pat) !== -1`. -/
def strContains (s pat : String) : Bool :=
  containsPat pat.toList s.toList

/-- Split a character list at every occurrence of the separator
(the semantics of `split` with a single-character separator: an empty
input gives one empty group). -/
def splitChar (sep : Char) : List Char → List (List Char)
  | [] => [[]]
  | c :: rest =>
    let r := splitChar sep rest
    if c = sep then [] :: r
    else
      match r with
      | [] => [[c]]
      | g :: gs => (c :: g) :: gs

/-- `s.split(sep)` for a one-character separator, on strings. -/
def splitSeg (s : String) (sep : Char) : List String :=
  (splitChar sep s.toList).map (fun l => String.mk l)

/-- `parts.join(sep)`: interleave the separator between the parts. -/
def joinSep (sep : String) : List String → String
  | [] => ""
  | [x] => x
  | x :: y :: xs => x ++ sep ++ joinSep sep (y :: xs)

/-! ## api.js -/

/-- The `errors` field of a 422 body: either a JSON object/array (whose values,
flattened one level as `.flat()` does, are strings) or a bare string. -/
inductive ErrorsVal where
  | obj (vals : List (List String))
  | str (s : String)
deriving DecidableEq, Repr

/-- JS truthiness of the `errors` field: objects/arrays are always truthy,
a string is truthy iff non-empty. -/
def errorsTruthy (o : Option ErrorsVal) : Bool :=
  match o with
  | some (ErrorsVal.obj _) => true
  | some (ErrorsVal.str s) => s ≠ ""
  | none => false

/-- A parsed JSON error body as `parseErrorMessage` reads it: the optional
`message`, `error` and `errors` fields. An all-`none` value is the empty
object `\x7b\x7d` that `request` substitutes for an unparseable body. -/
structure ErrorBody where
  message : Option String := none
  error : Option String := none
  errors : Option ErrorsVal := none
deriving DecidableEq, Repr

/-- `parseErrorMessage(res, data)` from `src/frontend/js/api.js` lines 21–39,
with `res.status` passed as a natural number. -/
def parseErrorMessage (status : Nat) (data : ErrorBody) : String :=
  if strTruthy data.message then data.message.getD ""
  else if strTruthy data.error then data.error.getD ""
  else if status = 422 && errorsTruthy data.errors then
    let parts : List String :=
      match data.errors with
      | some (ErrorsVal.obj vals) => vals.flatten
      | some (ErrorsVal.str s) => [s]
      | none => []
    let joined := joinSep ". " (parts.filter (fun p => p ≠ ""))
    if joined = "" then "Dữ liệu không hợp lệ." else joined
  else if status = 401 then
    if strTruthy data.message &&
        (strContains (data.message.getD "") "token" ||
         strContains (data.message.getD "") "Authentication") then
      data.message.getD "" ++ " Vui lòng đăng nhập lại."
    else "Email hoặc mật khẩu không đúng."
  else if status = 409 then "Email này đã được đăng ký."
  else if status = 501 then strOr data.message "Chức năng đang được cập nhật."
  else if status ≥ 500 then strOr data.message "Lỗi máy chủ. Vui lòng thử lại sau."
  else strOr data.message "Yêu cầu thất bại. Vui lòng thử lại."

/-- `API_BASE` with the default config (`http://localhost:9999`). -/
def API_BASE : String := "http://localhost:9999"

/-- The connectivity error message thrown when `fetch` itself rejects. -/
def connectErrorMsg : String :=
  "Không thể kết nối máy chủ. Kiểm tra backend đã chạy tại " ++ API_BASE ++ " chưa."

/-- `res.ok`: status in the inclusive range 200–299. -/
def resOk (status : Nat) : Bool := 200 ≤ status && status ≤ 299

/-- What the underlying `fetch` did: rejected at the network level, or
completed with a status and a body whose JSON parse either succeeded
(`some`) or failed (`none`). -/
inductive FetchOutcome where
  | netFailure
  | response (status : Nat) (parsedBody : Option ErrorBody)
deriving DecidableEq, Repr

/-- The settled promise of `request`: resolved with the body, or rejected
with an error message. -/
inductive ReqResult where
  | resolved (body : ErrorBody)
  | rejected (msg : String)
deriving DecidableEq, Repr

/-- `request(method, path, body, useAuth)` from `src/frontend/js/api.js`
lines 41–55, as a function of the fetch outcome: a network-level failure
rejects with the connectivity message; otherwise the body parse failure is
replaced by the empty object, a 2xx resolves with the body, and anything
else rejects with `parseErrorMessage`. -/
def request (outcome : FetchOutcome) : ReqResult :=
  match outcome with
  | FetchOutcome.netFailure => ReqResult.rejected connectErrorMsg
  | FetchOutcome.response status parsed =>
    let data := parsed.getD {}
    if resOk status then ReqResult.resolved data
    else ReqResult.rejected (parseErrorMessage status data)

/-! ## auth.js -/

/-- The `user` record that `setAuthFromResponse` builds and stores
(`\x7baccount_id, email, role_id, clinic_id\x7d`). -/
structure UserRec where
  account_id : Option Nat := none
  email : Option String := none
  role_id : Option Nat := none
  clinic_id : Option Nat := none
deriving DecidableEq, Repr

/-- The three persistent storage keys (token, serialized user, role),
each possibly absent. -/
structure Storage where
  token : Option String := none
  user : Option UserRec := none
  role : Option String := none
deriving DecidableEq, Repr

/-- `getRole()`: the stored role string, or `""` when absent. -/
def getRole (st : Storage) : String := st.role.getD ""

/-- `isLoggedIn()`: JS truthiness of the stored token. -/
def isLoggedIn (st : Storage) : Bool := strTruthy st.token

/-- `setAuth(token, user, role)` from `src/frontend/js/auth.js` lines 30–34:
each key is written only when the corresponding argument is truthy
(a user object is always truthy when present). -/
def setAuth (st : Storage) (token : Option String) (user : Option UserRec)
    (role : String) : Storage :=
  let st1 := if strTruthy token then { st with token := token } else st
  let st2 := if user.isSome then { st1 with user := user } else st1
  if role ≠ "" then { st2 with role := some role } else st2

/-- `getRoleNameByRoleId(roleId)` from `src/frontend/js/auth.js` lines 92–95:
the fixed table 1=Admin, 2=Doctor, 3=Patient, 4=ClinicManager, else `""`. -/
def getRoleNameByRoleId (roleId : Option Nat) : String :=
  match roleId with
  | some 1 => "Admin"
  | some 2 => "Doctor"
  | some 3 => "Patient"
  | some 4 => "ClinicManager"
  | _ => ""

/-- The payload fields of a login/register response body that
`setAuthFromResponse` reads. -/
structure AuthData where
  access_token : Option String := none
  account_id : Option Nat := none
  email : Option String := none
  role_id : Option Nat := none
  clinic_id : Option Nat := none
deriving DecidableEq, Repr

/-- A login/register response body: `dataField` is its `data` property
(absent or null ↦ `none`), `topLevel` is the body itself read as an
`AuthData` (for the un-wrapped shape). -/
structure AuthResponse where
  dataField : Option AuthData := none
  topLevel : AuthData := {}
deriving DecidableEq, Repr

/-- `responseData && responseData.data ? responseData.data : responseData`. -/
def extractData (r : AuthResponse) : AuthData :=
  match r.dataField with
  | some d => d
  | none => r.topLevel

/-- `setAuthFromResponse(responseData)` from `src/frontend/js/auth.js`
lines 98–105, with the storage threaded explicitly; `none` input models a
null/undefined `responseData`. Returns the JS boolean and the new storage. -/
def setAuthFromResponse (st : Storage) (responseData : Option AuthResponse) :
    Bool × Storage :=
  match responseData with
  | none => (false, st)
  | some r =>
    let data := extractData r
    if strTruthy data.access_token then
      let user : UserRec :=
        { account_id := data.account_id, email := data.email,
          role_id := data.role_id, clinic_id := data.clinic_id }
      let roleName := getRoleNameByRoleId data.role_id
      (true, setAuth st data.access_token (some user) roleName)
    else (false, st)

/-- `pathname.replace(/\/[^\x2f]*$/, '')`: drop the final `/`-segment
(the segment may be empty); a string with no `/` is unchanged. -/
def stripLastSeg (s : String) : String :=
  let parts := splitSeg s '/'
  if parts.length ≥ 2 then joinSep "/" parts.dropLast else s

/-- `.replace(/\/[^\x2f]+$/, '')`: drop the final `/`-segment only when the
segment is non-empty. -/
def stripLastNonemptySeg (s : String) : String :=
  let parts := splitSeg s '/'
  if parts.length ≥ 2 ∧ parts.getLast! ≠ "" then
    joinSep "/" parts.dropLast
  else s

/-- The role → dashboard-path table shared by `requireRole` and
`redirectByRole`. -/
def dashboardMap (role : String) : Option String :=
  if role = "Patient" then some "patient/dashboard.html"
  else if role = "Doctor" then some "doctor/dashboard.html"
  else if role = "ClinicManager" then some "clinic/dashboard.html"
  else if role = "Admin" then some "admin/dashboard.html"
  else none

/-- The outcome of a gate call: the JS return value and the location
assigned to `window.location.href`, if any. -/
structure GateOutcome where
  result : Bool
  redirectTo : Option String := none
deriving DecidableEq, Repr

/-- `getLoginPageUrl()` from `src/frontend/js/auth.js` lines 51–64. -/
def getLoginPageUrl (origin pathname : String) : String :=
  let segments := (splitSeg pathname '/').filter (fun s => s ≠ "")
  let penult := (segments.get? (segments.length - 2)).getD ""
  if segments.length ≥ 2 ∧
      (penult = "patient" ∨ penult = "doctor" ∨ penult = "admin" ∨
       penult = "clinic") then
    let base := joinSep "/" (segments.dropLast.dropLast)
    origin ++ (if base ≠ "" then "/" ++ base ++ "/" else "/") ++ "login.html"
  else if segments.length ≥ 1 then
    let base := joinSep "/" segments.dropLast
    origin ++ (if base ≠ "" then "/" ++ base ++ "/" else "/") ++ "login.html"
  else origin ++ "/login.html"

/-- `requireLogin()` (no explicit argument) from `src/frontend/js/auth.js`
lines 67–73. -/
def requireLogin (st : Storage) (origin pathname : String) : GateOutcome :=
  if isLoggedIn st then { result := true }
  else { result := false, redirectTo := some (getLoginPageUrl origin pathname) }

/-- `requireRole(allowedRole)` from `src/frontend/js/auth.js` lines 76–89. -/
def requireRole (st : Storage) (origin pathname : String)
    (allowedRole : String) : GateOutcome :=
  let rl := requireLogin st origin pathname
  if rl.result = false then rl
  else
    let role := getRole st
    if role ≠ allowedRole then
      let parent := stripLastNonemptySeg (stripLastSeg pathname)
      let rel := (dashboardMap role).getD "index.html"
      let fullPath := (if parent ≠ "" then parent ++ "/" else "/") ++ rel
      { result := false, redirectTo := some (origin ++ fullPath) }
    else { result := true }

/-! ## AuraTable (`src/frontend/js/components/spinner.js`, second IIFE) -/

/-- A table column: `key` plus an optional `label` (the header cell is
`col.label || col.key`). The optional custom cell renderer does not affect
row counts or the pager and is omitted. -/
structure Column where
  key : String
  label : Option String := none
deriving DecidableEq, Repr

/-- `escapeHtml` via `div.textContent` / `div.innerHTML`: escapes
`&`, `<`, `>`. -/
def escapeHtml (s : String) : String :=
  ((s.replace "&" "&amp;").replace "<" "&lt;").replace ">" "&gt;"

/-- The result of `parseInt(x, 10)` on an arbitrary option value:
`none` models `NaN`. -/
abbrev ParsedInt := Option Int

/-- JS `v || fallback` on a number: `NaN` and `0` are falsy. -/
def numOr (v : ParsedInt) (fallback : Int) : Int :=
  match v with
  | none => fallback
  | some 0 => fallback
  | some n => n

/-- `Math.max(1, parseInt(opts.pageSize, 10) || 10)` (line 71). -/
def effPageSize (raw : ParsedInt) : Int := max 1 (numOr raw 10)

/-- `Math.max(1, parseInt(opts.currentPage, 10) || 1)` (line 72). -/
def effCurrentPage (raw : ParsedInt) : Int := max 1 (numOr raw 1)

/-- One entry of the rendered pagination list. -/
inductive PagerItem where
  | prev (disabled : Bool)
  | page (n : Nat) (active : Bool)
  | ellipsis
  | next (disabled : Bool)
deriving DecidableEq, Repr

/-- The pagination item list built on lines 102–112, for a (clamped)
current page `cp` and page count `tp`. -/
def pagerItems (cp tp : Nat) : List PagerItem :=
  let lo := max 1 (cp - 2)
  let hi := min tp (cp + 2)
  [PagerItem.prev (decide (cp ≤ 1))]
  ++ (if 1 < lo then [PagerItem.page 1 false] else [])
  ++ (if 2 < lo then [PagerItem.ellipsis] else [])
  ++ (List.range' lo (hi + 1 - lo)).map (fun p => PagerItem.page p (decide (p = cp)))
  ++ (if hi < tp - 1 then [PagerItem.ellipsis] else [])
  ++ (if hi < tp then [PagerItem.page tp false] else [])
  ++ [PagerItem.next (decide (cp ≥ tp))]

/-- What one `AuraTable.render` call puts in the container: the header
cells, the rows of the current page slice, the page count, the clamped
current page, and the pager (absent when there is a single page). -/
structure RenderResult (α : Type) where
  headerCells : List String
  rows : List α
  totalPages : Nat
  clampedPage : Nat
  pager : Option (List PagerItem)
deriving DecidableEq, Repr

/-- The body of `render` (lines 75–114) after the `pageSize`/`currentPage`
coercions: `ps` and `cp` are the already-effective (≥ 1) values. -/
def renderCore {α : Type} (columns : List Column) (data : List α)
    (ps cp : Nat) : RenderResult α :=
  let total := data.length
  let totalPages := max 1 ((total + ps - 1) / ps)
  let currentPage := min cp totalPages
  let start := (currentPage - 1) * ps
  let pageData := (data.drop start).take ps
  { headerCells := columns.map (fun c => escapeHtml (strOr c.label c.key)),
    rows := pageData,
    totalPages := totalPages,
    clampedPage := currentPage,
    pager := if 1 < totalPages then some (pagerItems currentPage totalPages)
             else none }

/-- `AuraTable.render(containerId, opts)` (lines 65–126) on the raw
`pageSize`/`currentPage` options (as `parseInt` results). -/
def render {α : Type} (columns : List Column) (data : List α)
    (rawPageSize rawCurrentPage : ParsedInt) : RenderResult α :=
  renderCore columns data (effPageSize rawPageSize).toNat
    (effCurrentPage rawCurrentPage).toNat

/-- The page numbers shown by a pager item list. -/
def shownPages (items : List PagerItem) : List Nat :=
  items.filterMap (fun i =>
    match i with
    | PagerItem.page n _ => some n
    | _ => none)

/-- How many ellipsis entries a pager item list contains. -/
def countEllipsis (items : List PagerItem) : Nat :=
  items.countP (fun i =>
    match i with
    | PagerItem.ellipsis => true
    | _ => false)

/-- The disabled flag of the leading `prev` control, if the list starts
with one. -/
def prevDisabledIn (items : List PagerItem) : Option Bool :=
  match items.head? with
  | some (PagerItem.prev d) => some d
  | _ => none

/-- The disabled flag of the trailing `next` control, if the list ends
with one. -/
def nextDisabledIn (items : List PagerItem) : Option Bool :=
  match items.getLast? with
  | some (PagerItem.next d) => some d
  | _ => none

/-! ## Register page (`validate` and the submit handler) -/

/-- The four input values the register page reads. -/
structure RegForm where
  email : String
  password : String
  confirm : String
  roleId : String
deriving DecidableEq, Repr

/-- Whether `t` matches the tail part of the email regex,
i.e. contains a `.` with at least one character before and after it. -/
def hasInnerDot (t : String) : Bool :=
  let cs := t.toList
  (List.range cs.length).any (fun i =>
    decide (0 < i) && decide (i + 1 < cs.length) && decide (cs.getD i ' ' = '.'))

/-- A character is in the regex class `[^\s@]` (JS `\s` also covers some
Unicode space characters, irrelevant to the claims). -/
def emailChar (c : Char) : Bool :=
  !(c = ' ' || c = '\t' || c = '\n' || c = '\r' ||
    c = '\x0b' || c = '\x0c' || c = '@')

/-- The test of the email regex `^[^\s@]+@[^\s@]+\.[^\s@]+$`: one `@`,
non-empty whitespace-free local part, and a domain part containing an
inner dot. -/
def emailRegexTest (s : String) : Bool :=
  match splitSeg s '@' with
  | [a, t] =>
    a ≠ "" && a.toList.all emailChar && t ≠ "" && t.toList.all emailChar &&
      hasInnerDot t
  | _ => false

/-- The invalid marker and the error text written for one field
(`msg = none` when the field is left valid). -/
structure FieldState where
  invalid : Bool
  msg : Option String := none
deriving DecidableEq, Repr

/-- The outcome of `validate()` from the register page: overall validity
plus each field's state. -/
structure ValidateResult where
  valid : Bool
  emailField : FieldState
  passwordField : FieldState
  confirmField : FieldState
  roleField : FieldState
deriving DecidableEq, Repr

/-- `validate()` from the register page (lines 32–79). -/
def validate (f : RegForm) : ValidateResult :=
  let email := f.email.trim
  let emailField : FieldState :=
    if email = "" then { invalid := true, msg := some "Vui lòng nhập email." }
    else if emailRegexTest email = false then
      { invalid := true, msg := some "Email không hợp lệ." }
    else { invalid := false }
  let passwordField : FieldState :=
    if f.password.length < 6 then
      { invalid := true, msg := some "Mật khẩu tối thiểu 6 ký tự." }
    else { invalid := false }
  let confirmField : FieldState :=
    if f.password ≠ f.confirm then
      { invalid := true, msg := some "Mật khẩu không khớp." }
    else { invalid := false }
  let roleField : FieldState :=
    if f.roleId = "" then { invalid := true, msg := some "Vui lòng chọn vai trò." }
    else { invalid := false }
  { valid := !(emailField.invalid || passwordField.invalid ||
               confirmField.invalid || roleField.invalid),
    emailField := emailField, passwordField := passwordField,
    confirmField := confirmField, roleField := roleField }

/-- What the submit handler does after `preventDefault`: either it returns
with the validation result before any network call, or it issues the
register request with this payload. -/
inductive SubmitAction where
  | blocked (v : ValidateResult)
  | networkCall (email password roleIdRaw : String)
deriving DecidableEq, Repr

/-- The register form submit handler (lines 81–93 of the page script), up
to the first network call. -/
def handleRegisterSubmit (f : RegForm) : SubmitAction :=
  let v := validate f
  if v.valid then SubmitAction.networkCall f.email.trim f.password f.roleId
  else SubmitAction.blocked v

/-! ## Theorems -/

/-- C1 (counterexample): a 409 response whose body carries
`message = "Tài khoản bị khóa"` derives exactly that message, not the fixed
duplicate-email override the claim prescribes for status 409. -/
theorem C1_counterexample :
    parseErrorMessage 409 { message := some "Tài khoản bị khóa" }
        = "Tài khoản bị khóa" ∧
    parseErrorMessage 409 { message := some "Tài khoản bị khóa" }
        ≠ "Email này đã được đăng ký." := by
  refine ⟨rfl, ?_⟩
  decide

/-- C1 (amended): for every HTTP response with status ≥ 400 whose JSON body
contains a (non-empty) `message` field, the derived error string equals that
message — for all statuses, including 401, 409, 422 and 501; the fixed
overrides for those statuses apply only when the body has no usable
`message`/`error` field. -/
theorem C1_amended (status : Nat) (data : ErrorBody) (_h400 : 400 ≤ status)
    (hmsg : strTruthy data.message = true) :
    parseErrorMessage status data = data.message.getD "" := by
  simp [parseErrorMessage, hmsg]

/-- C1 witness: the amended statement at status 401 with message `"m"`. -/
theorem C1_witness :
    parseErrorMessage 401 { message := some "m" } = "m" :=
  C1_amended 401 { message := some "m" } (by decide) (by decide)

/-- C6: `request` resolves with the parsed JSON body exactly on 2xx,
rejects with a `parseErrorMessage`-derived error on every other status, and
rejects with the connectivity message on a network-level fetch failure; so
it rejects iff the response is non-2xx or the host is unreachable. -/
theorem C6_request (status : Nat) (parsed : Option ErrorBody) :
    (request FetchOutcome.netFailure = ReqResult.rejected connectErrorMsg) ∧
    (resOk status = true → ∀ body : ErrorBody, parsed = some body →
      request (FetchOutcome.response status parsed) = ReqResult.resolved body) ∧
    (resOk status = false →
      request (FetchOutcome.response status parsed)
        = ReqResult.rejected (parseErrorMessage status (parsed.getD {}))) ∧
    (∀ out : FetchOutcome, (∃ m, request out = ReqResult.rejected m) ↔
      (out = FetchOutcome.netFailure ∨
        ∃ s b, out = FetchOutcome.response s b ∧ resOk s = false)) := by
  refine ⟨rfl, ?_, ?_, ?_⟩
  · intro hok body hbody
    subst hbody
    simp [request, hok]
  · intro hnot
    simp [request, hnot]
  · intro out
    cases out with
    | netFailure => simp [request]
    | response s b =>
      constructor
      · rintro ⟨m, hm⟩
        refine Or.inr ⟨s, b, rfl, ?_⟩
        by_contra hok
        simp only [Bool.not_eq_false] at hok
        simp [request, hok] at hm
      · rintro (h | ⟨s', b', heq, hbad⟩)
        · exact absurd h (by simp)
        · cases heq
          exact ⟨parseErrorMessage s (b.getD {}), by simp [request, hbad]⟩

/-- C6 witness: a concrete non-2xx response rejects with the derived
message. -/
theorem C6_witness :
    request (FetchOutcome.response 404 (some {}))
      = ReqResult.rejected (parseErrorMessage 404 {}) :=
  (C6_request 404 (some {})).2.2.1 (by decide)

/-- C8: a 2xx response whose body fails to parse as JSON resolves with the
empty object instead of rejecting. -/
theorem C8_parse_failure_resolves_empty (status : Nat)
    (h2xx : resOk status = true) :
    request (FetchOutcome.response status none)
      = ReqResult.resolved ({} : ErrorBody) := by
  simp [request, h2xx]

/-- C8 witness: the statement at status 200. -/
theorem C8_witness :
    request (FetchOutcome.response 200 none)
      = ReqResult.resolved ({} : ErrorBody) :=
  C8_parse_failure_resolves_empty 200 (by decide)

/-- C9: the effective page size is always ≥ 1 (absent/NaN and 0 become 10,
a negative value becomes 1), the effective current page is ≥ 1, so the
page-count division never divides by zero and the slice start index is
non-negative. -/
theorem C9_coercions (rawPS rawCP : ParsedInt) :
    1 ≤ effPageSize rawPS ∧ 1 ≤ effCurrentPage rawCP ∧
    effPageSize none = 10 ∧ effPageSize (some 0) = 10 ∧
    (∀ n : Int, n < 0 → effPageSize (some n) = 1) ∧
    (effPageSize rawPS).toNat ≠ 0 ∧
    0 ≤ (effCurrentPage rawCP - 1) * effPageSize rawPS := by
  have hps : 1 ≤ effPageSize rawPS := le_max_left _ _
  have hcp : 1 ≤ effCurrentPage rawCP := le_max_left _ _
  refine ⟨hps, hcp, rfl, rfl, ?_, ?_, ?_⟩
  · intro n hn
    have : numOr (some n) 10 = n := by
      cases n with
      | ofNat m =>
        cases m with
        | zero => exact absurd hn (by decide)
        | succ k => rfl
      | negSucc m => rfl
    simp only [effPageSize, this]
    omega
  · omega
  · exact mul_nonneg (by omega) (by omega)

/-- C9 witness: a negative raw page size is coerced to 1. -/
theorem C9_witness : effPageSize (some (-5)) = 1 :=
  (C9_coercions (some (-5)) none).2.2.2.2.1 (-5) (by decide)

/-- C4: a logged-in call to `requireRole(allowed)` with a stored role
different from `allowed` returns false and redirects to the dashboard of
the *stored* role (or `index.html` when the stored role has none); in
particular `requireRole("Doctor")` with stored role `"Patient"` redirects
to the Patient dashboard path. -/
theorem C4_requireRole (st : Storage) (origin pathname allowed : String)
    (hlog : isLoggedIn st = true) (hrole : getRole st ≠ allowed) :
    (requireRole st origin pathname allowed).result = false ∧
    (∃ base, (requireRole st origin pathname allowed).redirectTo
        = some (base ++ (dashboardMap (getRole st)).getD "index.html")) ∧
    requireRole { token := some "t", role := some "Patient" } ""
        "/doctor/dashboard.html" "Doctor"
      = { result := false, redirectTo := some "/patient/dashboard.html" } := by
  have hreq : requireRole st origin pathname allowed =
      { result := false,
        redirectTo := some (origin ++
          ((if stripLastNonemptySeg (stripLastSeg pathname) ≠ "" then
              stripLastNonemptySeg (stripLastSeg pathname) ++ "/"
            else "/") ++ (dashboardMap (getRole st)).getD "index.html")) } := by
    simp [requireRole, requireLogin, hlog, hrole]
  refine ⟨by rw [hreq], ?_, by decide⟩
  refine ⟨origin ++ (if stripLastNonemptySeg (stripLastSeg pathname) ≠ "" then
      stripLastNonemptySeg (stripLastSeg pathname) ++ "/" else "/"), ?_⟩
  rw [hreq, String.append_assoc]

/-- C4 witness: the statement at the concrete Patient/Doctor instance. -/
theorem C4_witness :
    (requireRole { token := some "t", role := some "Patient" } ""
        "/doctor/dashboard.html" "Doctor").result = false ∧
    (∃ base, (requireRole { token := some "t", role := some "Patient" } ""
        "/doctor/dashboard.html" "Doctor").redirectTo
        = some (base ++
            (dashboardMap (getRole { token := some "t", role := some "Patient" })).getD
              "index.html")) ∧
    requireRole { token := some "t", role := some "Patient" } ""
        "/doctor/dashboard.html" "Doctor"
      = { result := false, redirectTo := some "/patient/dashboard.html" } :=
  C4_requireRole { token := some "t", role := some "Patient" } ""
    "/doctor/dashboard.html" "Doctor" (by decide) (by decide)

/-- C5: `setAuthFromResponse` on `\x7bdata: \x7baccess_token: "t",
role_id: 3\x7d\x7d` returns true and persists token `"t"` and role
`"Patient"` (via the fixed role-id table); on any body whose extracted data
lacks a truthy `access_token` (or on a null body) it returns false and
leaves the storage unchanged. -/
theorem C5_setAuthFromResponse (st : Storage) (r : AuthResponse)
    (hno : strTruthy (extractData r).access_token = false) :
    (setAuthFromResponse st
        (some { dataField := some { access_token := some "t", role_id := some 3 } })).1
      = true ∧
    (setAuthFromResponse st
        (some { dataField := some { access_token := some "t", role_id := some 3 } })).2.token
      = some "t" ∧
    (setAuthFromResponse st
        (some { dataField := some { access_token := some "t", role_id := some 3 } })).2.role
      = some "Patient" ∧
    getRoleNameByRoleId (some 3) = "Patient" ∧
    setAuthFromResponse st (some r) = (false, st) ∧
    setAuthFromResponse st none = (false, st) := by
  refine ⟨rfl, rfl, rfl, rfl, ?_, rfl⟩
  simp [setAuthFromResponse, hno]

/-- C5 witness: the statement at an empty response body. -/
theorem C5_witness :
    (setAuthFromResponse {}
        (some { dataField := some { access_token := some "t", role_id := some 3 } })).1
      = true ∧
    (setAuthFromResponse {}
        (some { dataField := some { access_token := some "t", role_id := some 3 } })).2.token
      = some "t" ∧
    (setAuthFromResponse {}
        (some { dataField := some { access_token := some "t", role_id := some 3 } })).2.role
      = some "Patient" ∧
    getRoleNameByRoleId (some 3) = "Patient" ∧
    setAuthFromResponse {} (some {}) = (false, {}) ∧
    setAuthFromResponse {} none = (false, {}) :=
  C5_setAuthFromResponse {} {} (by decide)

/-- C7: submitting the registration form with password `"abc"` and confirm
`"abcdef"` marks both the password-length error and the confirm-mismatch
error invalid with their messages, makes `validate` fail, and the submit
handler returns before any network call, for every email and role input. -/
theorem C7_register_validation (email roleId : String) :
    (validate (RegForm.mk email "abc" "abcdef" roleId)).passwordField
      = { invalid := true, msg := some "Mật khẩu tối thiểu 6 ký tự." } ∧
    (validate (RegForm.mk email "abc" "abcdef" roleId)).confirmField
      = { invalid := true, msg := some "Mật khẩu không khớp." } ∧
    (validate (RegForm.mk email "abc" "abcdef" roleId)).valid = false ∧
    handleRegisterSubmit (RegForm.mk email "abc" "abcdef" roleId)
      = SubmitAction.blocked (validate (RegForm.mk email "abc" "abcdef" roleId)) := by
  have hvalid :
      (validate (RegForm.mk email "abc" "abcdef" roleId)).valid = false := by
    simp [validate]
  refine ⟨rfl, rfl, hvalid, ?_⟩
  simp [handleRegisterSubmit, hvalid]

/-- C10: `setAuthFromResponse` with a truthy `access_token` but a `role_id`
outside the fixed table writes the token and user keys, leaves the role key
unchanged, still returns true, and the resulting session is logged in —
possibly with no stored role at all. -/
theorem C10_unknown_role (st : Storage) (d : AuthData)
    (htok : strTruthy d.access_token = true)
    (hrid : ∀ n, d.role_id = some n → n ∉ ([1, 2, 3, 4] : List Nat)) :
    (setAuthFromResponse st (some { dataField := some d })).1 = true ∧
    (setAuthFromResponse st (some { dataField := some d })).2.token
      = d.access_token ∧
    (setAuthFromResponse st (some { dataField := some d })).2.user
      = some { account_id := d.account_id, email := d.email,
               role_id := d.role_id, clinic_id := d.clinic_id } ∧
    (setAuthFromResponse st (some { dataField := some d })).2.role = st.role ∧
    isLoggedIn (setAuthFromResponse st (some { dataField := some d })).2
      = true := by
  have hname : getRoleNameByRoleId d.role_id = "" := by
    match hc : d.role_id with
    | none => rfl
    | some n =>
      have hn := hrid n hc
      simp only [List.mem_cons, List.not_mem_nil, or_false, not_or] at hn
      match n, hn with
      | 0, _ => rfl
      | 1, hn => exact absurd rfl hn.1
      | 2, hn => exact absurd rfl hn.2.1
      | 3, hn => exact absurd rfl hn.2.2.1
      | 4, hn => exact absurd rfl hn.2.2.2
      | (k + 5), _ => rfl
  simp only [setAuthFromResponse, extractData, htok, hname, setAuth,
    if_true, Option.isSome_some, ite_true]
  simp [isLoggedIn, htok]

/-- C10 witness: the statement at `role_id = 9` on empty storage. -/
theorem C10_witness :
    (setAuthFromResponse {}
        (some { dataField := some { access_token := some "t", role_id := some 9 } })).1
      = true ∧
    (setAuthFromResponse {}
        (some { dataField := some { access_token := some "t", role_id := some 9 } })).2.token
      = some "t" ∧
    (setAuthFromResponse {}
        (some { dataField := some { access_token := some "t", role_id := some 9 } })).2.user
      = some { account_id := none, email := none, role_id := some 9,
               clinic_id := none } ∧
    (setAuthFromResponse {}
        (some { dataField := some { access_token := some "t", role_id := some 9 } })).2.role
      = (Storage.mk none none none).role ∧
    isLoggedIn (setAuthFromResponse {}
        (some { dataField := some { access_token := some "t", role_id := some 9 } })).2
      = true :=
  C10_unknown_role {} { access_token := some "t", role_id := some 9 }
    (by decide) (by intro n hn; injection hn with h; subst h; decide)

/-- C2 (counterexample): with 5 data rows, page size 10 and requested page
2, `render` clamps to page 1 and renders 5 rows, while the claimed formula
`min(n, L - (p-1)*n)` gives 0 — the row-count formula fails for an
out-of-range requested page. -/
theorem C2_counterexample :
    (renderCore ([] : List Column) (List.range 5) 10 2).rows.length = 5 ∧
    ¬ ((renderCore ([] : List Column) (List.range 5) 10 2).rows.length
        = min 10 (5 - (2 - 1) * 10)) := by
  constructor
  · rfl
  · decide

/-- C2 (amended): `renderCore` keeps the clamped page in
`[1, max(1, ceil(L/n))]`, paginates over exactly `max(1, ceil(L/n))` pages,
and renders exactly `min(n, L - (p-1)*n)` rows whenever the requested page
`p` lies within that range. -/
theorem C2_amended {α : Type} (columns : List Column) (data : List α)
    (ps cp : Nat) (_hps : 1 ≤ ps) (hcp : 1 ≤ cp) :
    (1 ≤ (renderCore columns data ps cp).clampedPage ∧
      (renderCore columns data ps cp).clampedPage
        ≤ (renderCore columns data ps cp).totalPages) ∧
    (renderCore columns data ps cp).totalPages
      = max 1 ((data.length + ps - 1) / ps) ∧
    (cp ≤ max 1 ((data.length + ps - 1) / ps) →
      (renderCore columns data ps cp).rows.length
        = min ps (data.length - (cp - 1) * ps)) := by
  have hclamp : (renderCore columns data ps cp).clampedPage
      = min cp (max 1 ((data.length + ps - 1) / ps)) := rfl
  have htp : (renderCore columns data ps cp).totalPages
      = max 1 ((data.length + ps - 1) / ps) := rfl
  have hrows : (renderCore columns data ps cp).rows
      = (data.drop
          ((min cp (max 1 ((data.length + ps - 1) / ps)) - 1) * ps)).take ps :=
    rfl
  refine ⟨⟨?_, ?_⟩, htp, ?_⟩
  · rw [hclamp]
    exact le_min hcp (le_max_left _ _)
  · rw [hclamp, htp]
    exact min_le_right _ _
  · intro hle
    rw [hrows, List.length_take, List.length_drop, Nat.min_eq_left hle]

/-- C2 witness: the amended statement at 5 rows, page size 2, page 2. -/
theorem C2_witness :
    (1 ≤ (renderCore ([] : List Column) (List.range 5) 2 2).clampedPage ∧
      (renderCore ([] : List Column) (List.range 5) 2 2).clampedPage
        ≤ (renderCore ([] : List Column) (List.range 5) 2 2).totalPages) ∧
    (renderCore ([] : List Column) (List.range 5) 2 2).totalPages
      = max 1 (((List.range 5).length + 2 - 1) / 2) ∧
    (2 ≤ max 1 (((List.range 5).length + 2 - 1) / 2) →
      (renderCore ([] : List Column) (List.range 5) 2 2).rows.length
        = min 2 ((List.range 5).length - (2 - 1) * 2)) :=
  C2_amended ([] : List Column) (List.range 5) 2 2 (by decide) (by decide)

/-- `shownPages` distributes over list append. -/
theorem shownPages_append (a b : List PagerItem) :
    shownPages (a ++ b) = shownPages a ++ shownPages b :=
  List.filterMap_append a b _

/-- A block of page entries shows exactly its page numbers. -/
theorem shownPages_map_page (f : Nat → Bool) (l : List Nat) :
    shownPages (l.map (fun p => PagerItem.page p (f p))) = l := by
  induction l with
  | nil => rfl
  | cons x xs ih =>
    simp only [shownPages, List.map_cons, List.filterMap_cons] at ih ⊢
    rw [ih]

/-- `shownPages` of the empty list. -/
theorem shownPages_nil : shownPages [] = [] := rfl

/-- `shownPages` skips a prev control. -/
theorem shownPages_prev (d : Bool) (l : List PagerItem) :
    shownPages (PagerItem.prev d :: l) = shownPages l := rfl

/-- `shownPages` collects a page entry. -/
theorem shownPages_page (n : Nat) (b : Bool) (l : List PagerItem) :
    shownPages (PagerItem.page n b :: l) = n :: shownPages l := rfl

/-- `shownPages` skips an ellipsis. -/
theorem shownPages_ellipsis (l : List PagerItem) :
    shownPages (PagerItem.ellipsis :: l) = shownPages l := rfl

/-- `shownPages` skips a next control. -/
theorem shownPages_next (d : Bool) (l : List PagerItem) :
    shownPages (PagerItem.next d :: l) = shownPages l := rfl

/-- `countEllipsis` distributes over list append. -/
theorem countEllipsis_append (a b : List PagerItem) :
    countEllipsis (a ++ b) = countEllipsis a + countEllipsis b :=
  List.countP_append _ _ _

/-- A block of page entries contains no ellipsis. -/
theorem countEllipsis_map_page (f : Nat → Bool) (l : List Nat) :
    countEllipsis (l.map (fun p => PagerItem.page p (f p))) = 0 := by
  induction l with
  | nil => rfl
  | cons x xs ih =>
    simp only [countEllipsis, List.map_cons, List.countP_cons] at ih ⊢
    simp [ih]

/-- `countEllipsis` of the empty list. -/
theorem countEllipsis_nil : countEllipsis [] = 0 := rfl

/-- `countEllipsis` skips a prev control. -/
theorem countEllipsis_prev (d : Bool) (l : List PagerItem) :
    countEllipsis (PagerItem.prev d :: l) = countEllipsis l := by
  simp [countEllipsis, List.countP_cons]

/-- `countEllipsis` skips a page entry. -/
theorem countEllipsis_page (n : Nat) (b : Bool) (l : List PagerItem) :
    countEllipsis (PagerItem.page n b :: l) = countEllipsis l := by
  simp [countEllipsis, List.countP_cons]

/-- `countEllipsis` counts an ellipsis. -/
theorem countEllipsis_ellipsis (l : List PagerItem) :
    countEllipsis (PagerItem.ellipsis :: l) = countEllipsis l + 1 := by
  simp [countEllipsis, List.countP_cons]

/-- `countEllipsis` skips a next control. -/
theorem countEllipsis_next (d : Bool) (l : List PagerItem) :
    countEllipsis (PagerItem.next d :: l) = countEllipsis l := by
  simp [countEllipsis, List.countP_cons]

/-- The page numbers a pager list shows: `1` and `tp` always, plus the
window `[max 1 (cp-2), min tp (cp+2)]`. -/
theorem shownPages_pagerItems (cp tp : Nat) :
    shownPages (pagerItems cp tp)
      = (if 1 < max 1 (cp - 2) then [1] else [])
        ++ List.range' (max 1 (cp - 2)) (min tp (cp + 2) + 1 - max 1 (cp - 2))
        ++ (if min tp (cp + 2) < tp then [tp] else []) := by
  simp only [pagerItems]
  split_ifs <;>
    simp [shownPages_append, shownPages_map_page, shownPages_prev,
      shownPages_page, shownPages_ellipsis, shownPages_next, shownPages_nil]

/-- A pager list has one ellipsis per omitted stretch: one before the
window iff `2 < max 1 (cp-2)` and one after iff
`min tp (cp+2) < tp - 1`. -/
theorem countEllipsis_pagerItems (cp tp : Nat) :
    countEllipsis (pagerItems cp tp)
      = (if 2 < max 1 (cp - 2) then 1 else 0)
        + (if min tp (cp + 2) < tp - 1 then 1 else 0) := by
  simp only [pagerItems]
  split_ifs <;>
    simp [countEllipsis_append, countEllipsis_map_page, countEllipsis_prev,
      countEllipsis_page, countEllipsis_ellipsis, countEllipsis_next,
      countEllipsis_nil]

/-- An ellipsis occurs in a pager list iff one of the two omission
conditions holds. -/
theorem ellipsis_mem_pagerItems (cp tp : Nat) :
    PagerItem.ellipsis ∈ pagerItems cp tp ↔
      2 < max 1 (cp - 2) ∨ min tp (cp + 2) < tp - 1 := by
  simp only [pagerItems]
  split_ifs <;> simp_all [List.mem_append] <;> omega

/-- The pager list starts with the prev control, disabled iff the current
page is at the lower bound. -/
theorem prevDisabledIn_pagerItems (cp tp : Nat) :
    prevDisabledIn (pagerItems cp tp) = some (decide (cp ≤ 1)) := rfl

/-- The pager list ends with the next control, disabled iff the current
page is at the upper bound. -/
theorem nextDisabledIn_pagerItems (cp tp : Nat) :
    nextDisabledIn (pagerItems cp tp) = some (decide (cp ≥ tp)) := by
  unfold nextDisabledIn pagerItems
  simp only [← List.append_assoc]
  rw [List.getLast?_concat]

/-- Full characterization of a pager list for a clamped current page
`cur ∈ [1, tp]` with at least two pages. -/
theorem pagerItems_spec (cur tp : Nat) (h1 : 1 ≤ cur) (h2 : cur ≤ tp)
    (h3 : 2 ≤ tp) :
    (1 ∈ shownPages (pagerItems cur tp) ∧
      tp ∈ shownPages (pagerItems cur tp)) ∧
    (∀ q, q ∈ shownPages (pagerItems cur tp) ↔
      q = 1 ∨ q = tp ∨ (max 1 (cur - 2) ≤ q ∧ q ≤ min tp (cur + 2))) ∧
    ((PagerItem.ellipsis ∈ pagerItems cur tp) ↔
      ((∃ q, 1 < q ∧ q < max 1 (cur - 2)) ∨
        (∃ q, min tp (cur + 2) < q ∧ q < tp))) ∧
    countEllipsis (pagerItems cur tp)
      = (if 2 < max 1 (cur - 2) then 1 else 0)
        + (if min tp (cur + 2) < tp - 1 then 1 else 0) ∧
    (prevDisabledIn (pagerItems cur tp) = some true ↔ cur = 1) ∧
    (nextDisabledIn (pagerItems cur tp) = some true ↔ cur = tp) := by
  have hmem : ∀ q, q ∈ shownPages (pagerItems cur tp) ↔
      q = 1 ∨ q = tp ∨ (max 1 (cur - 2) ≤ q ∧ q ≤ min tp (cur + 2)) := by
    intro q
    rw [shownPages_pagerItems]
    split_ifs <;>
      simp only [List.mem_append, List.mem_range'_1, List.mem_singleton,
        List.not_mem_nil, false_or, or_false] <;>
      omega
  refine ⟨⟨(hmem 1).2 (Or.inl rfl), (hmem tp).2 (Or.inr (Or.inl rfl))⟩,
    hmem, ?_, countEllipsis_pagerItems cur tp, ?_, ?_⟩
  · rw [ellipsis_mem_pagerItems]
    constructor
    · rintro (h | h)
      · exact Or.inl ⟨2, by omega, by omega⟩
      · exact Or.inr ⟨min tp (cur + 2) + 1, by omega, by omega⟩
    · rintro (⟨q, hq1, hq2⟩ | ⟨q, hq1, hq2⟩)
      · exact Or.inl (by omega)
      · exact Or.inr (by omega)
  · rw [prevDisabledIn_pagerItems]
    simp only [Option.some.injEq, decide_eq_true_eq]
    omega
  · rw [nextDisabledIn_pagerItems]
    simp only [Option.some.injEq, decide_eq_true_eq, ge_iff_le]
    omega

/-- C3: whenever `render` emits a pager (more than one page), the pager
always shows page 1 and the last page, shows exactly the pages of the
2-page neighborhood window around the clamped current page besides them,
has an ellipsis iff some page is omitted before (resp. after) the window —
one ellipsis per omitted stretch — and disables the prev control iff the
current page is 1 and the next control iff it is the last page. -/
theorem C3_pager_controls {α : Type} (columns : List Column) (data : List α)
    (ps cp : Nat) (hcp : 1 ≤ cp) (items : List PagerItem)
    (hpager : (renderCore columns data ps cp).pager = some items) :
    (1 ∈ shownPages items ∧
      (renderCore columns data ps cp).totalPages ∈ shownPages items) ∧
    (∀ q, q ∈ shownPages items ↔
      q = 1 ∨ q = (renderCore columns data ps cp).totalPages ∨
        (max 1 ((renderCore columns data ps cp).clampedPage - 2) ≤ q ∧
          q ≤ min (renderCore columns data ps cp).totalPages
                ((renderCore columns data ps cp).clampedPage + 2))) ∧
    ((PagerItem.ellipsis ∈ items) ↔
      ((∃ q, 1 < q ∧
          q < max 1 ((renderCore columns data ps cp).clampedPage - 2)) ∨
        (∃ q, min (renderCore columns data ps cp).totalPages
                ((renderCore columns data ps cp).clampedPage + 2) < q ∧
          q < (renderCore columns data ps cp).totalPages))) ∧
    countEllipsis items
      = (if 2 < max 1 ((renderCore columns data ps cp).clampedPage - 2)
          then 1 else 0)
        + (if min (renderCore columns data ps cp).totalPages
              ((renderCore columns data ps cp).clampedPage + 2)
            < (renderCore columns data ps cp).totalPages - 1
          then 1 else 0) ∧
    (prevDisabledIn items = some true ↔
      (renderCore columns data ps cp).clampedPage = 1) ∧
    (nextDisabledIn items = some true ↔
      (renderCore columns data ps cp).clampedPage
        = (renderCore columns data ps cp).totalPages) := by
  have etp : (renderCore columns data ps cp).totalPages
      = max 1 ((data.length + ps - 1) / ps) := rfl
  have ecur : (renderCore columns data ps cp).clampedPage
      = min cp (max 1 ((data.length + ps - 1) / ps)) := rfl
  have epager : (renderCore columns data ps cp).pager
      = (if 1 < max 1 ((data.length + ps - 1) / ps) then
          some (pagerItems (min cp (max 1 ((data.length + ps - 1) / ps)))
            (max 1 ((data.length + ps - 1) / ps)))
        else none) := rfl
  rw [epager] at hpager
  by_cases h2 : 1 < max 1 ((data.length + ps - 1) / ps)
  · rw [if_pos h2] at hpager
    obtain rfl : items = pagerItems
        (min cp (max 1 ((data.length + ps - 1) / ps)))
        (max 1 ((data.length + ps - 1) / ps)) :=
      (Option.some.inj hpager).symm
    rw [etp, ecur]
    exact pagerItems_spec _ _ (le_min hcp (le_max_left _ _))
      (min_le_right _ _) h2
  · rw [if_neg h2] at hpager
    exact absurd hpager (by simp)

/-- C3 witness: a pager for 5 rows at page size 2, requested page 1
(3 pages, pager present). -/
theorem C3_witness :
    (1 ∈ shownPages (pagerItems 1 3) ∧
      (renderCore ([] : List Column) (List.range 5) 2 1).totalPages
        ∈ shownPages (pagerItems 1 3)) ∧
    (∀ q, q ∈ shownPages (pagerItems 1 3) ↔
      q = 1 ∨ q = (renderCore ([] : List Column) (List.range 5) 2 1).totalPages ∨
        (max 1 ((renderCore ([] : List Column) (List.range 5) 2 1).clampedPage - 2) ≤ q ∧
          q ≤ min (renderCore ([] : List Column) (List.range 5) 2 1).totalPages
                ((renderCore ([] : List Column) (List.range 5) 2 1).clampedPage + 2))) ∧
    ((PagerItem.ellipsis ∈ pagerItems 1 3) ↔
      ((∃ q, 1 < q ∧
          q < max 1 ((renderCore ([] : List Column) (List.range 5) 2 1).clampedPage - 2)) ∨
        (∃ q, min (renderCore ([] : List Column) (List.range 5) 2 1).totalPages
                ((renderCore ([] : List Column) (List.range 5) 2 1).clampedPage + 2) < q ∧
          q < (renderCore ([] : List Column) (List.range 5) 2 1).totalPages))) ∧
    countEllipsis (pagerItems 1 3)
      = (if 2 < max 1 ((renderCore ([] : List Column) (List.range 5) 2 1).clampedPage - 2)
          then 1 else 0)
        + (if min (renderCore ([] : List Column) (List.range 5) 2 1).totalPages
              ((renderCore ([] : List Column) (List.range 5) 2 1).clampedPage + 2)
            < (renderCore ([] : List Column) (List.range 5) 2 1).totalPages - 1
          then 1 else 0) ∧
    (prevDisabledIn (pagerItems 1 3) = some true ↔
      (renderCore ([] : List Column) (List.range 5) 2 1).clampedPage = 1) ∧
    (nextDisabledIn (pagerItems 1 3) = some true ↔
      (renderCore ([] : List Column) (List.range 5) 2 1).clampedPage
        = (renderCore ([] : List Column) (List.range 5) 2 1).totalPages) :=
  C3_pager_controls ([] : List Column) (List.range 5) 2 1 (by decide)
    (pagerItems 1 3) (by rfl)

end Aura




